import Mathlib

/-!
Shallow embedding of the AutoFare identity-verification prototype.

The repository delegates face comparison and image enhancement to an
external generative model; its own logic is HTTP routing, validation,
a shared "pending selfie" slot, and an orchestrator that interprets the
model's one-sentence judgment against a fixed sentinel string.

External model calls are modelled as oracle functions `String → … →
Except String String`: `Except.error m` stands for the call throwing an
`Error` whose `message` is `m`, `Except.ok v` for a successful return.
The orchestrator additionally returns the ordered list of outbound AI
calls it made, so that "the enhance operation is invoked exactly once"
and "never invoked" are statable.
-/

namespace AutoFare

/-- A judgment/enhancement call outcome: `Except.error m` models a thrown
`Error` with message `m`; `Except.ok v` a successful return value. -/
abbrev AiResult := Except String String

/-- JavaScript/zod `s.startsWith(p)`, modelled on the character list so the
kernel can evaluate it (`String.startsWith` itself is byte-indexed and not
kernel-reducible). -/
def strStartsWith (s p : String) : Bool :=
  p.data.isPrefixOf s.data

/-- Substring search on character lists: does `pat` occur in the list? -/
def charsContain (pat : List Char) : List Char → Bool
  | [] => pat.isEmpty
  | c :: cs => pat.isPrefixOf (c :: cs) || charsContain pat cs

/-- JavaScript `s.includes(pat)`. -/
def strIncludes (s pat : String) : Bool :=
  charsContain pat.data s.data

/-- The two external-model operations of the Verification Service Client,
abstracted as oracles for one run: `genSummary selfie cctv` models
`generateAlertSummary` (the flow body, post input-schema), `enhance cctv`
models the `enhanceCctvImageFlow` body. -/
structure Oracles where
  genSummary : String → String → AiResult
  enhance : String → AiResult

/-- The Judgment Sentinel, `SUCCESS_SUMMARY` in src/src/app/actions.ts line 20
(and identically in the combined API routes). -/
def SUCCESS_SUMMARY : String :=
  "Verified successful: The same person is present in both images."

/-- `VerificationResult` from src/src/app/actions.ts lines 15-18: the
tri-state outcome of one orchestration run. -/
inductive VerificationResult where
  | verified (message : String)
  | failed (summary : String) (enhancedImageUri : String) (message : String)
  | error (message : String)
deriving DecidableEq

/-- One outbound AI call recorded by the orchestrator, in invocation order. -/
inductive AiCall where
  | genSummary (selfieDataUri : String) (cctvDataUri : String)
  | enhance (cctvImageDataUri : String)
deriving DecidableEq

/-- Whether a recorded call is an invocation of the enhance operation. -/
def AiCall.isEnhance : AiCall → Bool
  | .enhance _ => true
  | _ => false

namespace Flows

/-- The input-validation failure of `EnhanceCctvImageInputSchema.parse`
(src/src/ai/flows/enhance-cctv-image.ts lines 14-23): the zod refine
message attached to the schema. The thrown `ZodError` is modelled as an
`Except.error` carrying this message. -/
def enhanceInputValidationMessage : String :=
  "CCTV image must be a valid image data URI starting with 'data:image/'."

/-- Shallow embedding of the exported `enhanceCctvImage`
(src/src/ai/flows/enhance-cctv-image.ts lines 35-40): it re-validates that
the payload starts with "data:image/" via `EnhanceCctvImageInputSchema.parse`
(throwing on failure) and only then runs `enhanceCctvImageFlow`, here the
oracle `flow`. -/
def enhanceCctvImage (flow : String → AiResult) (cctvImageDataUri : String) : AiResult :=
  if strStartsWith cctvImageDataUri "data:image/" then flow cctvImageDataUri
  else Except.error enhanceInputValidationMessage

end Flows

namespace Actions

/-- The `selfie` form-data file field: a browser `File` with a MIME type and
base64-encoded contents (the `arrayBuffer`-to-base64 conversion of
actions.ts lines 38-40 is modelled as already performed on `base64`). -/
structure SelfieFile where
  fileType : String
  base64 : String
deriving DecidableEq

/-- The data URI built from the uploaded selfie file,
src/src/app/actions.ts line 40. -/
def selfieUriOfFile (f : SelfieFile) : String :=
  "data:" ++ f.fileType ++ ";base64," ++ f.base64

/-- The zod field-error messages of `VerificationInputSchema.safeParse`
(actions.ts lines 10-13, 51-53), flattened and joined in field order. -/
def validationErrors (selfieDataUri cctvDataUri : String) : List String :=
  (if strStartsWith selfieDataUri "data:image/" then []
   else ["Selfie must be a valid image data URI."]) ++
  (if strStartsWith cctvDataUri "data:image/" then []
   else ["CCTV frame must be a valid image data URI."])

/-- Shallow embedding of `processVerification`
(src/src/app/actions.ts lines 22-95), the Verification Orchestrator.
Inputs are the two form fields (`formData.get` returning null is `none`);
the result is paired with the ordered list of AI calls the run makes. -/
def processVerification (o : Oracles) (selfieFile : Option SelfieFile)
    (cctvDataUriFromForm : Option String) : VerificationResult × List AiCall :=
  match selfieFile with
  | none => (.error "Selfie image is required.", [])
  | some f =>
    -- `!cctvDataUriFromForm` in JavaScript: null and the empty string both fail.
    if cctvDataUriFromForm.getD "" = "" then
      (.error "CCTV frame is required. Please ensure camera is working.", [])
    else
      let cctv := cctvDataUriFromForm.getD ""
      let selfieDataUri := selfieUriOfFile f
      if strStartsWith selfieDataUri "data:image/" && strStartsWith cctv "data:image/" then
        match o.genSummary selfieDataUri cctv with
        | .error m =>
          (.error ("Failed to get AI insights: " ++ m), [.genSummary selfieDataUri cctv])
        | .ok summary =>
          if summary = SUCCESS_SUMMARY then
            (.verified "Identity verified successfully.", [.genSummary selfieDataUri cctv])
          else
            match Flows.enhanceCctvImage o.enhance cctv with
            | .ok enhanced =>
              (.failed summary enhanced "Identity verification did not confirm a match.",
               [.genSummary selfieDataUri cctv, .enhance cctv])
            | .error m =>
              (.error ("Failed to get AI insights: " ++ m),
               [.genSummary selfieDataUri cctv, .enhance cctv])
      else
        (.error ("Invalid input: " ++
          String.intercalate " " (validationErrors selfieDataUri cctv)), [])

/-- The result component of an orchestrator run. -/
def runResult (o : Oracles) (f : Option SelfieFile) (c : Option String) :
    VerificationResult :=
  (processVerification o f c).1

/-- The outbound-AI-call trace of an orchestrator run. -/
def runCalls (o : Oracles) (f : Option SelfieFile) (c : Option String) :
    List AiCall :=
  (processVerification o f c).2

end Actions

namespace ReceivePhoto

/-- A request body as the intake endpoint sees it: `malformed e` models
`request.json()` throwing a parse error whose message is `e`; `parsed s?`
models a parsed JSON object whose `selfieDataUri` field is `s?` (absent,
or any non-string value, is `none` — zod rejects both the same way). -/
inductive Body where
  | malformed (errMsg : String)
  | parsed (selfieDataUri : Option String)
deriving DecidableEq

/-- A JSON response of the intake endpoint: HTTP status code plus the
structured `status`/`message` envelope. -/
structure PostResponse where
  httpStatus : Nat
  status : String
  message : String
deriving DecidableEq

/-- Whether zod accepts the `selfieDataUri` field
(`ReceivePhotoInputSchema`, src/src/app/api/receive-photo/route.ts
lines 9-11): the field must be a string starting with "data:image/". -/
def validSelfieField : Option String → Bool
  | some s => strStartsWith s "data:image/"
  | none => false

/-- Shallow embedding of the plain intake `POST` handler
(src/src/app/api/receive-photo/route.ts lines 20-67). The state is the
Pending Selfie Slot `lastReceivedSelfieForPage`; the result pairs the
new slot value with the response. A `malformed` body makes
`request.json()` throw, reaching the catch block, which rewrites
messages containing "Unexpected token" and responds with status 500. -/
def POST (slot : Option String) (b : Body) : Option String × PostResponse :=
  match b with
  | .malformed e =>
    let errorMessage :=
      if strIncludes e "Unexpected token" then
        "Failed to parse JSON body. Please ensure the request body is valid JSON and the 'Content-Type' header is set to 'application/json'."
      else e
    (slot, ⟨500, "error", "Backend Error: " ++ errorMessage⟩)
  | .parsed s? =>
    if validSelfieField s? then
      (s?, ⟨200, "success", "Photo received successfully."⟩)
    else
      (slot, ⟨400, "error",
        "Invalid input. Ensure you are sending a JSON object with 'selfieDataUri' and check your 'Content-Type: application/json' header."⟩)

end ReceivePhoto

namespace GetLatestSelfie

/-- Shallow embedding of the peek-variant poll `GET` handler
(src/src/app/api/receive-photo/route.ts lines 206-216): it returns the
current slot value in the `selfieDataUri` response field and leaves the
slot untouched. Result: (slot after the call, response field). -/
def GET (slot : Option String) : Option String × Option String :=
  (slot, slot)

end GetLatestSelfie

namespace GetLatestSelfieConsume

/-- Shallow embedding of the consuming-intended poll `GET` handler
(src/src/app/api/receive-photo/route.ts lines 232-296). Its comments
discuss clearing the slot after the read, but the code finally only
returns the value: `if (lastReceivedSelfieForPage)` (JavaScript
truthiness, so an empty string also falls to the null branch) and then
`return NextResponse.json({ selfieDataUri: tempSelfie })` with no
assignment to the slot. Result: (slot after the call, response field). -/
def GET (slot : Option String) : Option String × Option String :=
  match slot with
  | some s => if s = "" then (slot, none) else (slot, some s)
  | none => (slot, none)

end GetLatestSelfieConsume

/-- A request body for the combined intake-and-verify endpoints:
`malformed e` models `request.json()` throwing with message `e`,
`parsed s? c?` a parsed object with optional `selfieDataUri` and
`cctvDataUri` string fields. -/
inductive VerifyBody where
  | malformed (errMsg : String)
  | parsed (selfieDataUri : Option String) (cctvDataUri : Option String)
deriving DecidableEq

/-- A response of a combined intake-and-verify endpoint: HTTP status plus
the serialized `VerificationResult` body. -/
structure VerifyResponse where
  httpStatus : Nat
  result : VerificationResult
deriving DecidableEq

/-- Whether both combined-endpoint fields pass their zod `startsWith`
checks. -/
def validVerifyFields : Option String → Option String → Bool
  | some s, some c => strStartsWith s "data:image/" && strStartsWith c "data:image/"
  | _, _ => false

namespace ReceivePhotoVerify

/-- The flattened, joined zod messages of the combined route in
src/src/app/api/receive-photo/route.ts lines 83-86, 112-118. -/
def validationErrors : Option String → Option String → List String :=
  fun s? c? =>
    (match s? with
     | some s => if strStartsWith s "data:image/" then []
                 else ["Selfie image data must be a valid data URI."]
     | none => ["Required"]) ++
    (match c? with
     | some c => if strStartsWith c "data:image/" then []
                 else ["CCTV image data must be a valid data URI."]
     | none => ["Required"])

/-- Shallow embedding of the combined intake-and-verify `POST` handler of
src/src/app/api/receive-photo/route.ts lines 97-183: a dedicated inner
catch turns a JSON parse failure into a 400 response; AI failures are
caught and returned as 500 with the "Failed to get AI insights via API:"
prefix; the sentinel comparison and enhance-on-mismatch mirror the
orchestrator. This variant never touches the Pending Selfie Slot. -/
def POST (o : Oracles) (b : VerifyBody) : VerifyResponse :=
  match b with
  | .malformed _ =>
    ⟨400, .error "Invalid JSON payload. Please ensure the request body is a valid JSON object."⟩
  | .parsed s? c? =>
    if validVerifyFields s? c? then
      match s?, c? with
      | some selfieDataUri, some cctvDataUri =>
        (match o.genSummary selfieDataUri cctvDataUri with
         | .error m => ⟨500, .error ("Failed to get AI insights via API: " ++ m)⟩
         | .ok summary =>
           if summary = SUCCESS_SUMMARY then
             ⟨200, .verified "Identity verified successfully via API."⟩
           else
             match Flows.enhanceCctvImage o.enhance cctvDataUri with
             | .ok enhanced =>
               ⟨200, .failed summary enhanced
                 "Identity verification did not confirm a match via API."⟩
             | .error m => ⟨500, .error ("Failed to get AI insights via API: " ++ m)⟩)
      | _, _ => ⟨400, .error "Invalid input: Validation failed."⟩
    else
      ⟨400, .error ("Invalid input: " ++
        String.intercalate " " (validationErrors s? c?))⟩

end ReceivePhotoVerify

namespace ApiVerify

/-- Shallow embedding of the combined intake-and-verify `POST` handler of
src/unnamed/part_000: one outer try wraps everything, so both a JSON
parse failure and an AI-call failure reach the same catch and come back
as 500 with the "Backend Error:" prefix; a zod failure yields 400 with
the fixed message "Invalid input"; the sentinel comparison returns
`verified` with message "Identity verified successfully.". -/
def POST (o : Oracles) (b : VerifyBody) : VerifyResponse :=
  match b with
  | .malformed e => ⟨500, .error ("Backend Error: " ++ e)⟩
  | .parsed s? c? =>
    if validVerifyFields s? c? then
      match s?, c? with
      | some selfieDataUri, some cctvDataUri =>
        (match o.genSummary selfieDataUri cctvDataUri with
         | .error m => ⟨500, .error ("Backend Error: " ++ m)⟩
         | .ok summary =>
           if summary = SUCCESS_SUMMARY then
             ⟨200, .verified "Identity verified successfully."⟩
           else
             match Flows.enhanceCctvImage o.enhance cctvDataUri with
             | .ok enhanced =>
               ⟨200, .failed summary enhanced
                 "Identity verification did not confirm a match."⟩
             | .error m => ⟨500, .error ("Backend Error: " ++ m)⟩)
      | _, _ => ⟨400, .error "Invalid input"⟩
    else
      ⟨400, .error "Invalid input"⟩

end ApiVerify

namespace ActionsV2

/-- `VerificationResult` as extended in src/unnamed/part_003 lines 14-17:
each shape carries an optional `selfieUsed` field. -/
inductive VerificationResult2 where
  | verified (message : String) (selfieUsed : Option String)
  | failed (summary : String) (enhancedImageUri : String) (message : String)
      (selfieUsed : Option String)
  | error (message : String) (selfieUsed : Option String)
deriving DecidableEq

/-- Shallow embedding of the `processVerification` variant of
src/unnamed/part_003: the `programmaticSelfieDataUri` form field is read
first; only when it is absent or empty (JavaScript falsiness of
`formData.get` returning null or the empty string) is the uploaded
`selfie` file read and converted to a data URI. The rest mirrors
actions.ts, with `selfieUsed` carried on post-resolution outcomes. -/
def processVerification (o : Oracles)
    (programmaticSelfieDataUri : Option String)
    (selfieFile : Option Actions.SelfieFile)
    (cctvDataUriFromForm : Option String) : VerificationResult2 × List AiCall :=
  let progVal := programmaticSelfieDataUri.getD ""
  let selfieRes : Except VerificationResult2 String :=
    if progVal = "" then
      match selfieFile with
      | none => .error (.error
          "Selfie image is required (either uploaded or provided programmatically)." none)
      | some f => .ok (Actions.selfieUriOfFile f)
    else .ok progVal
  match selfieRes with
  | .error r => (r, [])
  | .ok selfieDataUri =>
    -- `!cctvDataUriFromForm` in JavaScript: null and the empty string both fail.
    if cctvDataUriFromForm.getD "" = "" then
      (.error "CCTV frame is required. Please ensure camera is working." none, [])
    else
      let cctv := cctvDataUriFromForm.getD ""
      if strStartsWith selfieDataUri "data:image/" && strStartsWith cctv "data:image/" then
        match o.genSummary selfieDataUri cctv with
        | .error m =>
          (.error ("Failed to get AI insights: " ++ m) (some selfieDataUri),
           [.genSummary selfieDataUri cctv])
        | .ok summary =>
          if summary = SUCCESS_SUMMARY then
            (.verified "Identity verified successfully." (some selfieDataUri),
             [.genSummary selfieDataUri cctv])
          else
            match Flows.enhanceCctvImage o.enhance cctv with
            | .ok enhanced =>
              (.failed summary enhanced "Identity verification did not confirm a match."
                 (some selfieDataUri),
               [.genSummary selfieDataUri cctv, .enhance cctv])
            | .error m =>
              (.error ("Failed to get AI insights: " ++ m) (some selfieDataUri),
               [.genSummary selfieDataUri cctv, .enhance cctv])
      else
        (.error ("Invalid input: " ++
           String.intercalate " " (Actions.validationErrors selfieDataUri cctv))
           (some selfieDataUri), [])

end ActionsV2

/-- `n` consecutive polls of the peek-variant Selfie Poll Endpoint starting
from `slot`, threading the slot state through each call; the list collects
the `selfieDataUri` response field of each poll in order. -/
def runPeekPolls (slot : Option String) : Nat → List (Option String)
  | 0 => []
  | n + 1 =>
    let r := GetLatestSelfie.GET slot
    r.2 :: runPeekPolls r.1 n

/-! Helper lemmas shared by the claim theorems. -/

/-- A string passing the image-data-URI check is non-empty. -/
theorem strStartsWith_image_ne_empty {s : String}
    (h : strStartsWith s "data:image/" = true) : s ≠ "" := by
  intro he
  subst he
  exact absurd h (by decide)

/-- The peek-variant poll leaves the slot untouched, so `n` consecutive
polls all return the current slot value. -/
theorem runPeekPolls_eq (st : Option String) :
    ∀ n, runPeekPolls st n = List.replicate n st
  | 0 => rfl
  | n + 1 => by
    simp [runPeekPolls, GetLatestSelfie.GET, runPeekPolls_eq st n, List.replicate]

/-- Valid input makes the exported `enhanceCctvImage` a pass-through to the
flow: its validation branch is not taken. -/
theorem enhanceCctvImage_valid {c : String}
    (hc : strStartsWith c "data:image/" = true) (flow : String → AiResult) :
    Flows.enhanceCctvImage flow c = flow c := by
  simp [Flows.enhanceCctvImage, hc]

/-- C1: for every pair of valid image data URIs, if the match operation
returns exactly the Judgment Sentinel, `processVerification` returns a
`verified` result and never invokes the enhance operation. -/
theorem c1_sentinel_verified_without_enhance (o : Oracles) (f : Actions.SelfieFile)
    (c : String)
    (hs : strStartsWith (Actions.selfieUriOfFile f) "data:image/" = true)
    (hc : strStartsWith c "data:image/" = true)
    (hm : o.genSummary (Actions.selfieUriOfFile f) c = .ok SUCCESS_SUMMARY) :
    (Actions.processVerification o (some f) (some c)).1
        = .verified "Identity verified successfully." ∧
      ∀ u, AiCall.enhance u ∉ (Actions.processVerification o (some f) (some c)).2 := by
  have hne : ¬ (c = "") := strStartsWith_image_ne_empty hc
  constructor
  · simp [Actions.processVerification, hne, hs, hc, hm]
  · intro u
    simp [Actions.processVerification, hne, hs, hc, hm]

/-- C1 witness: a concrete valid run where the oracle answers the sentinel. -/
theorem c1_witness :
    (Actions.processVerification
        ⟨fun _ _ => .ok SUCCESS_SUMMARY, fun _ => .ok "unused"⟩
        (some ⟨"image/png", "AAA="⟩) (some "data:image/png;base64,BBB=")).1
        = .verified "Identity verified successfully." ∧
      ∀ u, AiCall.enhance u ∉
        (Actions.processVerification
          ⟨fun _ _ => .ok SUCCESS_SUMMARY, fun _ => .ok "unused"⟩
          (some ⟨"image/png", "AAA="⟩) (some "data:image/png;base64,BBB=")).2 :=
  c1_sentinel_verified_without_enhance
    ⟨fun _ _ => .ok SUCCESS_SUMMARY, fun _ => .ok "unused"⟩
    ⟨"image/png", "AAA="⟩ "data:image/png;base64,BBB="
    (by decide) (by decide) rfl

/-- C2: for every pair of valid image data URIs, a non-empty non-sentinel
judgment makes `processVerification` return `failed` carrying that exact
judgment as `summary` and the enhance payload as `enhancedImageUri`, with
the enhance operation invoked exactly once, on the CCTV payload. -/
theorem c2_mismatch_failed_enhance_once (o : Oracles) (f : Actions.SelfieFile)
    (c j e : String)
    (hs : strStartsWith (Actions.selfieUriOfFile f) "data:image/" = true)
    (hc : strStartsWith c "data:image/" = true)
    (hm : o.genSummary (Actions.selfieUriOfFile f) c = .ok j)
    (hj0 : j ≠ "") (hj : j ≠ SUCCESS_SUMMARY)
    (he : o.enhance c = .ok e) :
    (Actions.processVerification o (some f) (some c)).1
        = .failed j e "Identity verification did not confirm a match." ∧
      (Actions.processVerification o (some f) (some c)).2.filter AiCall.isEnhance
        = [.enhance c] := by
  have hne : ¬ (c = "") := strStartsWith_image_ne_empty hc
  constructor
  · simp [Actions.processVerification, hne, hs, hc, hm, hj,
      enhanceCctvImage_valid hc, he]
  · simp [Actions.processVerification, hne, hs, hc, hm, hj,
      enhanceCctvImage_valid hc, he, AiCall.isEnhance]

/-- C2 witness: a concrete valid run with a non-sentinel judgment and a
successful enhancement. -/
theorem c2_witness :
    (Actions.processVerification
        ⟨fun _ _ => .ok "No matching person found in both images.",
         fun _ => .ok "data:image/png;base64,CCC="⟩
        (some ⟨"image/png", "AAA="⟩) (some "data:image/png;base64,BBB=")).1
        = .failed "No matching person found in both images."
            "data:image/png;base64,CCC="
            "Identity verification did not confirm a match." ∧
      (Actions.processVerification
        ⟨fun _ _ => .ok "No matching person found in both images.",
         fun _ => .ok "data:image/png;base64,CCC="⟩
        (some ⟨"image/png", "AAA="⟩) (some "data:image/png;base64,BBB=")).2.filter
          AiCall.isEnhance
        = [.enhance "data:image/png;base64,BBB="] :=
  c2_mismatch_failed_enhance_once
    ⟨fun _ _ => .ok "No matching person found in both images.",
     fun _ => .ok "data:image/png;base64,CCC="⟩
    ⟨"image/png", "AAA="⟩ "data:image/png;base64,BBB="
    "No matching person found in both images." "data:image/png;base64,CCC="
    (by decide) (by decide) rfl (by decide) (by decide) rfl

/-- C3: for every pair of valid image data URIs, a failure raised by either
external call makes `processVerification` return `error` with the failure
text prefixed by "Failed to get AI insights: "; when the match operation is
the one that raised, the enhance operation is never invoked. -/
theorem c3_external_failure_error (o : Oracles) (f : Actions.SelfieFile)
    (c : String)
    (hs : strStartsWith (Actions.selfieUriOfFile f) "data:image/" = true)
    (hc : strStartsWith c "data:image/" = true) :
    (∀ m, o.genSummary (Actions.selfieUriOfFile f) c = .error m →
        (Actions.processVerification o (some f) (some c)).1
            = .error ("Failed to get AI insights: " ++ m) ∧
          ∀ u, AiCall.enhance u ∉ (Actions.processVerification o (some f) (some c)).2) ∧
    (∀ j m, o.genSummary (Actions.selfieUriOfFile f) c = .ok j →
        j ≠ SUCCESS_SUMMARY → o.enhance c = .error m →
        (Actions.processVerification o (some f) (some c)).1
            = .error ("Failed to get AI insights: " ++ m)) := by
  have hne : ¬ (c = "") := strStartsWith_image_ne_empty hc
  constructor
  · intro m hm
    constructor
    · simp [Actions.processVerification, hne, hs, hc, hm]
    · intro u
      simp [Actions.processVerification, hne, hs, hc, hm]
  · intro j m hm hj he
    simp [Actions.processVerification, hne, hs, hc, hm, hj,
      enhanceCctvImage_valid hc, he]

/-- C3 witness: concrete runs where the match call raises and where the
enhance call raises. -/
theorem c3_witness :
    ((Actions.processVerification
        ⟨fun _ _ => .error "model unreachable", fun _ => .ok "unused"⟩
        (some ⟨"image/png", "AAA="⟩) (some "data:image/png;base64,BBB=")).1
        = .error "Failed to get AI insights: model unreachable" ∧
      ∀ u, AiCall.enhance u ∉
        (Actions.processVerification
          ⟨fun _ _ => .error "model unreachable", fun _ => .ok "unused"⟩
          (some ⟨"image/png", "AAA="⟩) (some "data:image/png;base64,BBB=")).2) ∧
    (Actions.processVerification
        ⟨fun _ _ => .ok "Unable to determine with confidence.",
         fun _ => .error "no media"⟩
        (some ⟨"image/png", "AAA="⟩) (some "data:image/png;base64,BBB=")).1
        = .error "Failed to get AI insights: no media" :=
  ⟨(c3_external_failure_error
      ⟨fun _ _ => .error "model unreachable", fun _ => .ok "unused"⟩
      ⟨"image/png", "AAA="⟩ "data:image/png;base64,BBB="
      (by decide) (by decide)).1 "model unreachable" rfl,
   (c3_external_failure_error
      ⟨fun _ _ => .ok "Unable to determine with confidence.",
       fun _ => .error "no media"⟩
      ⟨"image/png", "AAA="⟩ "data:image/png;base64,BBB="
      (by decide) (by decide)).2
     "Unable to determine with confidence." "no media" rfl (by decide) rfl⟩

/-- C9: whenever the orchestrator invokes `enhanceCctvImage`, the argument
has already passed the "data:image/" validation, so the wrapper's own
input re-validation cannot fail: on every such argument it is a plain
pass-through to the flow, the validation-throw branch unreachable. -/
theorem c9_enhance_validation_unreachable (o : Oracles)
    (f? : Option Actions.SelfieFile) (c? : Option String) (u : String)
    (hu : AiCall.enhance u ∈ (Actions.processVerification o f? c?).2) :
    strStartsWith u "data:image/" = true ∧
      ∀ flow : String → AiResult, Flows.enhanceCctvImage flow u = flow u := by
  match f? with
  | none => simp [Actions.processVerification] at hu
  | some f =>
    simp only [Actions.processVerification] at hu
    by_cases h0 : c?.getD "" = ""
    · simp [h0] at hu
    · rw [if_neg h0] at hu
      by_cases hv : (strStartsWith (Actions.selfieUriOfFile f) "data:image/" &&
          strStartsWith (c?.getD "") "data:image/") = true
      · rw [if_pos hv] at hu
        have hc : strStartsWith (c?.getD "") "data:image/" = true :=
          (Bool.and_eq_true _ _ |>.mp hv).2
        have hu' : u = c?.getD "" := by
          rcases hg : o.genSummary (Actions.selfieUriOfFile f) (c?.getD "") with m | s
          · simp [hg] at hu
          · simp only [hg] at hu
            by_cases hsum : s = SUCCESS_SUMMARY
            · simp [hsum] at hu
            · rw [if_neg hsum] at hu
              rcases he : Flows.enhanceCctvImage o.enhance (c?.getD "") with m | v <;>
                simp only [he] at hu <;> simpa using hu
        subst hu'
        exact ⟨hc, fun flow => enhanceCctvImage_valid hc flow⟩
      · rw [if_neg hv] at hu
        simp at hu

/-- C9 witness: a concrete mismatch run whose trace contains an enhance
invocation. -/
theorem c9_witness :
    strStartsWith "data:image/png;base64,BBB=" "data:image/" = true ∧
      ∀ flow : String → AiResult,
        Flows.enhanceCctvImage flow "data:image/png;base64,BBB="
          = flow "data:image/png;base64,BBB=" :=
  c9_enhance_validation_unreachable
    ⟨fun _ _ => .ok "Unable to determine with confidence.",
     fun _ => .ok "data:image/png;base64,CCC="⟩
    (some ⟨"image/png", "AAA="⟩) (some "data:image/png;base64,BBB=")
    "data:image/png;base64,BBB=" (by decide)

/-- C4 counterexample: in the consuming-intended poll variant, after one
valid intake submission, the second consecutive poll does NOT return null:
it returns the same payload again, because the handler never clears the
slot. -/
theorem c4_counterexample :
    (let st := (ReceivePhoto.POST none
        (.parsed (some "data:image/png;base64,AAA="))).1
     let p1 := GetLatestSelfieConsume.GET st
     let p2 := GetLatestSelfieConsume.GET p1.1
     p1.2 = some "data:image/png;base64,AAA=" ∧
       p2.2 = some "data:image/png;base64,AAA=" ∧ p2.2 ≠ none) := by
  decide

/-- C4 (amended): in the consuming-intended variant, after one intake
submission the first poll returns the submitted payload and the second
consecutive poll (with no intervening submission) returns the SAME payload
again rather than null: the handler only reads the slot and never clears
it, so the variant behaves as a peek. -/
theorem c4_consume_variant_never_clears (slot : Option String) (p : String)
    (hp : strStartsWith p "data:image/" = true) :
    (let st := (ReceivePhoto.POST slot (.parsed (some p))).1
     let p1 := GetLatestSelfieConsume.GET st
     let p2 := GetLatestSelfieConsume.GET p1.1
     p1.2 = some p ∧ p2.2 = some p ∧ p1.1 = st ∧ p2.1 = st) := by
  have hne : p ≠ "" := strStartsWith_image_ne_empty hp
  simp [ReceivePhoto.POST, ReceivePhoto.validSelfieField, hp,
    GetLatestSelfieConsume.GET, hne]

/-- C4 witness: the amended statement at a concrete submission. -/
theorem c4_witness :
    (let st := (ReceivePhoto.POST none
        (.parsed (some "data:image/png;base64,AAA="))).1
     let p1 := GetLatestSelfieConsume.GET st
     let p2 := GetLatestSelfieConsume.GET p1.1
     p1.2 = some "data:image/png;base64,AAA=" ∧
       p2.2 = some "data:image/png;base64,AAA=" ∧ p1.1 = st ∧ p2.1 = st) :=
  c4_consume_variant_never_clears none "data:image/png;base64,AAA=" (by decide)

/-- C5: in the peek variant, a valid accepted submission makes every
subsequent poll return exactly the submitted payload until a later valid
submission overwrites the slot, and the poll itself never modifies the
slot. -/
theorem c5_peek_poll_persists (slot : Option String) (p : String)
    (hp : strStartsWith p "data:image/" = true) :
    (ReceivePhoto.POST slot (.parsed (some p))).1 = some p ∧
      (∀ n, runPeekPolls (ReceivePhoto.POST slot (.parsed (some p))).1 n
          = List.replicate n (some p)) ∧
      (∀ st : Option String, (GetLatestSelfie.GET st).1 = st) ∧
      (∀ q, strStartsWith q "data:image/" = true →
        (ReceivePhoto.POST (some p) (.parsed (some q))).1 = some q) := by
  refine ⟨?_, ?_, ?_, ?_⟩
  · simp [ReceivePhoto.POST, ReceivePhoto.validSelfieField, hp]
  · intro n
    rw [show (ReceivePhoto.POST slot (.parsed (some p))).1 = some p by
      simp [ReceivePhoto.POST, ReceivePhoto.validSelfieField, hp]]
    exact runPeekPolls_eq (some p) n
  · intro st
    rfl
  · intro q hq
    simp [ReceivePhoto.POST, ReceivePhoto.validSelfieField, hq]

/-- C5 witness: a concrete submission followed by three peek polls. -/
theorem c5_witness :
    (ReceivePhoto.POST none (.parsed (some "data:image/png;base64,AAA="))).1
        = some "data:image/png;base64,AAA=" ∧
      runPeekPolls
        (ReceivePhoto.POST none (.parsed (some "data:image/png;base64,AAA="))).1 3
        = List.replicate 3 (some "data:image/png;base64,AAA=") :=
  ⟨(c5_peek_poll_persists none "data:image/png;base64,AAA=" (by decide)).1,
   (c5_peek_poll_persists none "data:image/png;base64,AAA=" (by decide)).2.1 3⟩

/-- C6: a request body whose selfie field does not begin with "data:image/"
makes the intake endpoint answer a 400 structured error and leaves the
Pending Selfie Slot unchanged. -/
theorem c6_invalid_selfie_rejected_slot_unchanged (slot : Option String)
    (s : String) (hs : strStartsWith s "data:image/" = false) :
    (ReceivePhoto.POST slot (.parsed (some s))).1 = slot ∧
      (ReceivePhoto.POST slot (.parsed (some s))).2.httpStatus = 400 ∧
      (ReceivePhoto.POST slot (.parsed (some s))).2.status = "error" ∧
      400 ≤ (ReceivePhoto.POST slot (.parsed (some s))).2.httpStatus ∧
      (ReceivePhoto.POST slot (.parsed (some s))).2.httpStatus < 500 := by
  simp [ReceivePhoto.POST, ReceivePhoto.validSelfieField, hs]

/-- C6 witness: the concrete payload of the spec's scenario. -/
theorem c6_witness :
    (ReceivePhoto.POST (some "data:image/png;base64,OLD=")
        (.parsed (some "not-a-data-uri"))).1 = some "data:image/png;base64,OLD=" ∧
      (ReceivePhoto.POST (some "data:image/png;base64,OLD=")
        (.parsed (some "not-a-data-uri"))).2.httpStatus = 400 ∧
      (ReceivePhoto.POST (some "data:image/png;base64,OLD=")
        (.parsed (some "not-a-data-uri"))).2.status = "error" ∧
      400 ≤ (ReceivePhoto.POST (some "data:image/png;base64,OLD=")
        (.parsed (some "not-a-data-uri"))).2.httpStatus ∧
      (ReceivePhoto.POST (some "data:image/png;base64,OLD=")
        (.parsed (some "not-a-data-uri"))).2.httpStatus < 500 :=
  c6_invalid_selfie_rejected_slot_unchanged
    (some "data:image/png;base64,OLD=") "not-a-data-uri" (by decide)

/-- C7 counterexample: a malformed JSON body makes the plain Photo Intake
Endpoint answer with HTTP 500, which is not a 400-class response, refuting
the claim as stated. -/
theorem c7_counterexample :
    (ReceivePhoto.POST none
        (.malformed "Unexpected token x in JSON at position 0")).2.httpStatus
        = 500 ∧
      ¬(400 ≤ (ReceivePhoto.POST none
          (.malformed "Unexpected token x in JSON at position 0")).2.httpStatus ∧
        (ReceivePhoto.POST none
          (.malformed "Unexpected token x in JSON at position 0")).2.httpStatus
          < 500) := by
  decide

/-- C7 (amended): a malformed JSON body is recovered locally into a
structured error response and never crashes either endpoint; the combined
intake-and-verify endpoint answers 400, but the plain Photo Intake Endpoint
answers a 500-status structured response ("Backend Error: ..."), leaving
the Pending Selfie Slot unchanged. -/
theorem c7_malformed_json_recovered (slot : Option String) (e : String)
    (o : Oracles) :
    (ReceivePhoto.POST slot (.malformed e)).1 = slot ∧
      (ReceivePhoto.POST slot (.malformed e)).2.httpStatus = 500 ∧
      (ReceivePhoto.POST slot (.malformed e)).2.status = "error" ∧
      ReceivePhotoVerify.POST o (.malformed e)
        = ⟨400, .error
            "Invalid JSON payload. Please ensure the request body is a valid JSON object."⟩ := by
  refine ⟨rfl, rfl, rfl, rfl⟩

/-- C8: submitting the spec's two concrete data URIs to the combined
intake-and-verify endpoint (src/unnamed/part_000), with the match oracle
answering the Judgment Sentinel, yields HTTP 200 and exactly the result
tagged verified with message "Identity verified successfully.". -/
theorem c8_end_to_end_verified :
    ApiVerify.POST
        ⟨fun _ _ => .ok SUCCESS_SUMMARY, fun _ => .ok "unused"⟩
        (.parsed (some "data:image/png;base64,AAA=")
          (some "data:image/png;base64,BBB="))
        = ⟨200, .verified "Identity verified successfully."⟩ := by
  decide

/-- C10: in the orchestrator variant accepting both a programmatic selfie
and a file upload (src/unnamed/part_003), a non-empty
programmaticSelfieDataUri takes priority: the uploaded file is ignored
entirely (the run is identical for any two file values); an empty string
behaves exactly like an absent field; and when the programmatic field is
absent the selfie sent to the match operation comes from the uploaded
file. -/
theorem c10_programmatic_selfie_priority :
    (∀ (o : Oracles) (p : String) (f₁ f₂ : Option Actions.SelfieFile)
        (c : Option String), p ≠ "" →
      ActionsV2.processVerification o (some p) f₁ c
        = ActionsV2.processVerification o (some p) f₂ c) ∧
    (∀ (o : Oracles) (f : Option Actions.SelfieFile) (c : Option String),
      ActionsV2.processVerification o (some "") f c
        = ActionsV2.processVerification o none f c) ∧
    (∀ (o : Oracles) (f : Actions.SelfieFile) (c s u : String),
      AiCall.genSummary s u ∈
          (ActionsV2.processVerification o none (some f) (some c)).2 →
      s = Actions.selfieUriOfFile f) := by
  refine ⟨?_, ?_, ?_⟩
  · intro o p f₁ f₂ c hp
    simp [ActionsV2.processVerification, hp]
  · intro o f c
    rfl
  · intro o f c s u hu
    simp only [ActionsV2.processVerification, Option.getD_none, Option.getD_some,
      reduceIte] at hu
    by_cases h0 : c = ""
    · simp [h0] at hu
    · rw [if_neg h0] at hu
      by_cases hv : (strStartsWith (Actions.selfieUriOfFile f) "data:image/" &&
          strStartsWith c "data:image/") = true
      · rw [if_pos hv] at hu
        rcases hg : o.genSummary (Actions.selfieUriOfFile f) c with m | t
        · simp only [hg] at hu
          simp at hu
          exact hu.1
        · simp only [hg] at hu
          by_cases hsum : t = SUCCESS_SUMMARY
          · rw [if_pos hsum] at hu
            simp at hu
            exact hu.1
          · rw [if_neg hsum] at hu
            rcases he : Flows.enhanceCctvImage o.enhance c with m | v <;>
              simp only [he] at hu <;> simp at hu <;> exact hu.1
      · rw [if_neg hv] at hu
        simp at hu

/-- C10 witness: concrete instances of the priority and file-fallback
parts. -/
theorem c10_witness :
    (ActionsV2.processVerification
        ⟨fun _ _ => .ok "Likely the same person.", fun _ => .ok "E"⟩
        (some "data:image/png;base64,PPP=") none (some "data:image/png;base64,BBB=")
        = ActionsV2.processVerification
            ⟨fun _ _ => .ok "Likely the same person.", fun _ => .ok "E"⟩
            (some "data:image/png;base64,PPP=") (some ⟨"image/png", "QQQ="⟩)
            (some "data:image/png;base64,BBB=")) ∧
      "data:image/png;base64,AAA="
        = Actions.selfieUriOfFile ⟨"image/png", "AAA="⟩ :=
  ⟨c10_programmatic_selfie_priority.1
      ⟨fun _ _ => .ok "Likely the same person.", fun _ => .ok "E"⟩
      "data:image/png;base64,PPP=" none (some ⟨"image/png", "QQQ="⟩)
      (some "data:image/png;base64,BBB=") (by decide),
   c10_programmatic_selfie_priority.2.2
      ⟨fun _ _ => .ok SUCCESS_SUMMARY, fun _ => .ok "E"⟩
      ⟨"image/png", "AAA="⟩ "data:image/png;base64,BBB="
      "data:image/png;base64,AAA=" "data:image/png;base64,BBB=" (by decide)⟩

end AutoFare
